import Mathlib

/-!
A shallow embedding of `wallpaper_ui.pyw` (the Qt front end of the
`wallpaper` generator) together with proofs about the behaviour of its
parameter widgets and its generate / validate / rasterize / cache /
display pipeline.

Modelling conventions:
* Python numbers are modelled as exact rationals (`ℚ`); the Qt integer
  widgets (QSpinBox, QSlider) hold integers (`ℤ`).  `QDoubleSpinBox`
  keeps two decimal digits (its default), modelled as rounding to the
  nearest multiple of `1/100`.  C-style conversion of a float argument
  to an int parameter truncates toward zero (`ratTrunc`).
* Qt signal delivery is synchronous.  An operation on a parameter
  widget returns the updated state together with the number of
  `valueChanged` notifications delivered to external listeners;
  `blockSignals` regions of the source are reflected by which internal
  cascades run and which emissions are counted.
* The external generator and the SVG validity check of `QSvgRenderer`
  are passed in as function parameters.
-/

/-- Qt's clamp on doubles: `qBound(mn, v, mx) = qMax(mn, qMin(mx, v))`. -/
def clampQ (mn mx v : ℚ) : ℚ := max mn (min mx v)

/-- The same clamp on ints, used by `QSpinBox` and `QSlider` to bound values. -/
def clampZ (mn mx v : ℤ) : ℤ := max mn (min mx v)

/-- Truncation toward zero, the C/C++ conversion applied when a Python
float is handed to an int-typed Qt setter.  (`Rat.floor` is used rather
than `Int.floor` so the definition evaluates by kernel reduction; they
agree, see `ratTrunc_eq`.) -/
def ratTrunc (q : ℚ) : ℤ := if 0 ≤ q then q.floor else -((-q).floor)

/-- Rounding to two decimal digits, `QDoubleSpinBox`'s default
precision (`decimals == 2`); ties round up. -/
def round2 (q : ℚ) : ℚ := (((q * 100 + 1 / 2).floor : ℤ) : ℚ) / 100

/-- The numeric kind of a `NumParameter`: `self._type = type(value)` in
`NumParameter.__init__`, either `int` or `float`. -/
inductive NumKind where
  | int : NumKind
  | flt : NumKind
deriving DecidableEq

/-- State of one `NumParameter` widget: the spin box (`field`), the
slider, the stored default `_dvalue`, and whether the
`field.valueChanged` / `slider.valueChanged` connections of the end of
`__init__` are in place yet. -/
structure NumParameter where
  kind : NumKind
  fieldMin : ℚ
  fieldMax : ℚ
  fieldVal : ℚ
  fieldStep : ℚ
  sliderMin : ℤ
  sliderMax : ℤ
  sliderVal : ℤ
  sliderStep : ℤ
  dvalue : ℚ
  connected : Bool
deriving DecidableEq

/-- What the spin box stores after `field.setValue(v)`: `QSpinBox`
truncates a float argument and clamps; `QDoubleSpinBox` rounds to two
decimals and then clamps (`QDoubleSpinBox::setValue` rounds, then
`QAbstractSpinBoxPrivate::setValue` bounds). -/
def fieldProcess (k : NumKind) (mn mx v : ℚ) : ℚ :=
  match k with
  | .int => clampQ mn mx ((ratTrunc v : ℤ) : ℚ)
  | .flt => clampQ mn mx (round2 v)

/-- The value pushed to the slider for a given logical value: raw for
int kind, `value * 100` truncated to int for float kind
(`NumParameter.setValue` lines 176-179, `_updateValueFromField`). -/
def scaleToSlider (k : NumKind) (v : ℚ) : ℤ :=
  match k with
  | .int => ratTrunc v
  | .flt => ratTrunc (v * 100)

/-- The field value derived from a slider position: `value / 100.0` for
float kind (`_updateValueFromSlider`). -/
def unscaleFromSlider (k : NumKind) (v : ℤ) : ℚ :=
  match k with
  | .int => (v : ℚ)
  | .flt => (v : ℚ) / 100

/-- Reading `NumParameter.value()`: `int(self.field.value())` for int kind,
`self.field.value()` for float kind. -/
def NumParameter.value (p : NumParameter) : ℚ :=
  match p.kind with
  | .int => ((ratTrunc p.fieldVal : ℤ) : ℚ)
  | .flt => p.fieldVal

def NumParameter.defaultValue (p : NumParameter) : ℚ := p.dvalue

/-- Source `NumParameter.setValue(value, use_as_default)`: blocks the field's
and the slider's signals (so neither update slot runs), optionally
stores the raw value as default, writes the field (clamped/rounded) and
the slider (scaled raw value, clamped), unblocks, and emits exactly one
`valueChanged` (line 183).  Returns the new state and the number of
`valueChanged` notifications emitted. -/
def NumParameter.setValue (p : NumParameter) (v : ℚ) (useAsDefault : Bool) :
    NumParameter × ℕ :=
  let p1 := if useAsDefault then { p with dvalue := v } else p
  ({ p1 with
      fieldVal := fieldProcess p1.kind p1.fieldMin p1.fieldMax v
      sliderVal := clampZ p1.sliderMin p1.sliderMax (scaleToSlider p1.kind v) },
   1)

/-- Source `NumParameter.setDefaultValue(value)`: stores the raw value. -/
def NumParameter.setDefaultValue (p : NumParameter) (v : ℚ) : NumParameter :=
  { p with dvalue := v }

/-- Source `NumParameter.resetToDefault()`: `self.setValue(self._dvalue)`. -/
def NumParameter.resetToDefault (p : NumParameter) : NumParameter × ℕ :=
  p.setValue p.dvalue false

/-- First half of `NumParameter.setRange`: the
`self.field.setRange(min_value, max_value)` call.  `QDoubleSpinBox`
rounds the bounds to its two decimals, `QSpinBox` truncates float
arguments; both coerce the stored maximum to `max(min, max)` and
re-bound their current value.  If the re-bound changed the field value,
`field.valueChanged` fires and (once connected) `_updateValueFromField`
pushes the new value to the slider; the slot's own
`self.valueChanged.emit()` is suppressed because `setRange` ran
`self.blockSignals(True)`. -/
def NumParameter.fieldRangeStep (p : NumParameter) (mn mx : ℚ) : NumParameter :=
  let fmn := match p.kind with
    | .int => ((ratTrunc mn : ℤ) : ℚ)
    | .flt => round2 mn
  let fmx0 := match p.kind with
    | .int => ((ratTrunc mx : ℤ) : ℚ)
    | .flt => round2 mx
  let fmx := max fmn fmx0
  let fv := clampQ fmn fmx p.fieldVal
  let p1 := { p with fieldMin := fmn, fieldMax := fmx, fieldVal := fv }
  if fv ≠ p.fieldVal ∧ p1.connected = true then
    { p1 with
        sliderVal := clampZ p1.sliderMin p1.sliderMax (scaleToSlider p1.kind fv) }
  else p1

/-- Second half of `NumParameter.setRange`: the `self.slider.setRange`
call — unscaled bounds for int kind, ×100 (truncated) for float.  If the
slider's re-bound changed its value, `slider.valueChanged` fires and
(once connected) `_updateValueFromSlider` writes `value / 100.0` back to
the field; again the external emission is suppressed. -/
def NumParameter.sliderRangeStep (p : NumParameter) (mn mx : ℚ) : NumParameter :=
  let smn := match p.kind with
    | .int => ratTrunc mn
    | .flt => ratTrunc (mn * 100)
  let smx0 := match p.kind with
    | .int => ratTrunc mx
    | .flt => ratTrunc (mx * 100)
  let smx := max smn smx0
  let sv := clampZ smn smx p.sliderVal
  let p3 := { p with sliderMin := smn, sliderMax := smx, sliderVal := sv }
  if sv ≠ p.sliderVal ∧ p3.connected = true then
    { p3 with
        fieldVal := fieldProcess p3.kind p3.fieldMin p3.fieldMax
          (unscaleFromSlider p3.kind sv) }
  else p3

/-- Source `NumParameter.setRange(min_value, max_value)`: the field call
followed by the slider call; with the widget's own signals blocked no
`valueChanged` reaches external listeners. -/
def NumParameter.setRange (p : NumParameter) (mn mx : ℚ) : NumParameter × ℕ :=
  ((p.fieldRangeStep mn mx).sliderRangeStep mn mx, 0)

/-- Source `NumParameter.setSingleStep(value)`: stores the step on both
widgets (×100, truncated, on the slider for float kind); never touches
the current value and, with the widget's signals blocked, emits
nothing. -/
def NumParameter.setSingleStep (p : NumParameter) (v : ℚ) : NumParameter × ℕ :=
  match p.kind with
  | .int => ({ p with fieldStep := ((ratTrunc v : ℤ) : ℚ), sliderStep := ratTrunc v }, 0)
  | .flt => ({ p with fieldStep := v, sliderStep := ratTrunc (v * 100) }, 0)

/-- A user edit committed by the spin box: the field clamps/rounds the
input; if its value actually changed, `field.valueChanged` fires and
`_updateValueFromField` writes the scaled value to the slider (slider
signals blocked) and emits one `valueChanged`. -/
def NumParameter.fieldEdit (p : NumParameter) (v : ℚ) : NumParameter × ℕ :=
  let fv := fieldProcess p.kind p.fieldMin p.fieldMax v
  if fv = p.fieldVal then (p, 0)
  else
    if p.connected then
      ({ p with
          fieldVal := fv
          sliderVal := clampZ p.sliderMin p.sliderMax (scaleToSlider p.kind fv) },
       1)
    else ({ p with fieldVal := fv }, 1)

/-- A slider move (user drag or programmatic `slider.setValue`): the
slider clamps; if its value actually changed, `slider.valueChanged`
fires and `_updateValueFromSlider` writes `value` (or `value / 100.0`)
into the field (field signals blocked) and emits one `valueChanged`. -/
def NumParameter.sliderEdit (p : NumParameter) (v : ℤ) : NumParameter × ℕ :=
  let sv := clampZ p.sliderMin p.sliderMax v
  if sv = p.sliderVal then (p, 0)
  else
    if p.connected then
      ({ p with
          sliderVal := sv
          fieldVal := fieldProcess p.kind p.fieldMin p.fieldMax
            (unscaleFromSlider p.kind sv) },
       1)
    else ({ p with sliderVal := sv }, 1)

/-- Source `NumParameter.__init__(value, value_range, single_step)`: fresh Qt
widgets (spin boxes default to range `[0, 99]` resp. `[0, 99.99]`,
sliders to `[0, 99]`, value `0`), then `setRange` (explicit range, or
`[0, 4096]` for int / `[0, 100]` for float), optional `setSingleStep`,
`setValue(value)`, `_dvalue = value`, and finally the slot
connections. -/
def NumParameter.init (k : NumKind) (v : ℚ) (vrange : Option (ℚ × ℚ))
    (step : Option ℚ) : NumParameter :=
  let s0 : NumParameter :=
    { kind := k
      fieldMin := 0
      fieldMax := match k with | .int => 99 | .flt => 9999 / 100
      fieldVal := 0
      fieldStep := 1
      sliderMin := 0
      sliderMax := 99
      sliderVal := 0
      sliderStep := 1
      dvalue := 0
      connected := false }
  let r : ℚ × ℚ := match vrange, k with
    | some r, _ => r
    | none, .int => (0, 4096)
    | none, .flt => (0, 100)
  let s1 := (s0.setRange r.1 r.2).1
  let s2 := match step with
    | some st => (s1.setSingleStep st).1
    | none => s1
  let s3 := (s2.setValue v false).1
  { s3 with dvalue := v, connected := true }

/-- The operations a `NumParameter` is subjected to after construction. -/
inductive NumOp where
  | set (v : ℚ) (useAsDefault : Bool)
  | range (mn mx : ℚ)
  | step (v : ℚ)
  | reset
  | fieldEdit (v : ℚ)
  | sliderEdit (v : ℤ)

def NumParameter.applyOp (p : NumParameter) : NumOp → NumParameter × ℕ
  | .set v d => p.setValue v d
  | .range mn mx => p.setRange mn mx
  | .step v => p.setSingleStep v
  | .reset => p.resetToDefault
  | .fieldEdit v => p.fieldEdit v
  | .sliderEdit v => p.sliderEdit v

def NumParameter.applyOps (p : NumParameter) (ops : List NumOp) : NumParameter :=
  ops.foldl (fun q op => (q.applyOp op).1) p

/-! ## ColorParameter -/

/-- An RGB color as stored by `QColor`: one byte per channel. -/
structure Color where
  r : Fin 256
  g : Fin 256
  b : Fin 256
deriving DecidableEq

/-- Value of one hexadecimal digit character, as accepted by `QColor`'s
`#rrggbb` parser (both cases). -/
def hexVal (ch : Char) : Option (Fin 16) :=
  let n := ch.toNat
  if h1 : 48 ≤ n ∧ n ≤ 57 then some ⟨n - 48, by omega⟩
  else if h2 : 97 ≤ n ∧ n ≤ 102 then some ⟨n - 87, by omega⟩
  else if h3 : 65 ≤ n ∧ n ≤ 70 then some ⟨n - 55, by omega⟩
  else none

/-- Lower-case hex digit, as emitted by `QColor.name()`. -/
def hexDigit (n : Fin 16) : Char :=
  match n.val with
  | 0 => '0' | 1 => '1' | 2 => '2' | 3 => '3' | 4 => '4'
  | 5 => '5' | 6 => '6' | 7 => '7' | 8 => '8' | 9 => '9'
  | 10 => 'a' | 11 => 'b' | 12 => 'c' | 13 => 'd' | 14 => 'e'
  | _ => 'f'

/-- A byte from its two hex digits. -/
def byteFromHex (hi lo : Fin 16) : Fin 256 :=
  ⟨hi.val * 16 + lo.val, by have h1 := hi.isLt; have h2 := lo.isLt; omega⟩

/-- The two lower-case hex digits of a byte. -/
def hexPair (n : Fin 256) : List Char :=
  [hexDigit ⟨n.val / 16, by have := n.isLt; omega⟩,
   hexDigit ⟨n.val % 16, by have := n.isLt; omega⟩]

/-- Normalization `QColor.name()`: the canonical lower-case `#rrggbb` form. -/
def Color.name (c : Color) : String :=
  String.mk ('#' :: (hexPair c.r ++ hexPair c.g ++ hexPair c.b))

/-- Modelled from the toolkit: the fragment of `QColor(str)` parsing this
program exercises — `#rrggbb`, the short `#rgb` form (each digit doubled),
and a few SVG color names; anything else is an invalid color. -/
def parseColorString (s : String) : Option Color :=
  match s.data with
  | ['#', c1, c2, c3, c4, c5, c6] =>
    match hexVal c1, hexVal c2, hexVal c3, hexVal c4, hexVal c5, hexVal c6 with
    | some h1, some l1, some h2, some l2, some h3, some l3 =>
        some ⟨byteFromHex h1 l1, byteFromHex h2 l2, byteFromHex h3 l3⟩
    | _, _, _, _, _, _ => none
  | ['#', c1, c2, c3] =>
    match hexVal c1, hexVal c2, hexVal c3 with
    | some d1, some d2, some d3 =>
        some ⟨byteFromHex d1 d1, byteFromHex d2 d2, byteFromHex d3 d3⟩
    | _, _, _ => none
  | _ =>
    if s = "black" then some ⟨0, 0, 0⟩
    else if s = "white" then some ⟨255, 255, 255⟩
    else if s = "red" then some ⟨255, 0, 0⟩
    else none

/-- An argument accepted by `QColor(value)`: a string to parse, or an
already-constructed `QColor` (which the copy constructor keeps valid). -/
inductive ColorInput where
  | str (s : String)
  | col (c : Color)
deriving DecidableEq

/-- Evaluation of `QColor(value)` together with its `isValid()` check. -/
def toColor : ColorInput → Option Color
  | .str s => parseColorString s
  | .col c => some c

/-- State of one `ColorParameter` widget: the `QLineEdit` text, the color
shown on the swatch button, the stored default `_dvalue`, and whether the
`field.textChanged -> valueChanged.emit` relay connection made at the end
of `__init__` (line 229) is in place yet. -/
structure ColorParameter where
  fieldText : String
  buttonColor : Color
  dvalue : ColorInput
  connected : Bool
deriving DecidableEq

/-- Reading `ColorParameter.value()`: the raw line-edit text. -/
def ColorParameter.value (p : ColorParameter) : String := p.fieldText

def ColorParameter.defaultValue (p : ColorParameter) : ColorInput := p.dvalue

/-- Source `ColorParameter.setDefaultValue(value)`: parse; if invalid do
nothing, otherwise store the normalized `color.name()`. -/
def ColorParameter.setDefaultValue (p : ColorParameter) (v : ColorInput) :
    ColorParameter :=
  match toColor v with
  | none => p
  | some c => { p with dvalue := .str c.name }

/-- Source `ColorParameter.setValue(value, use_as_default)`: parse; if
invalid, return early (no state change, no emission).  Otherwise normalize
to `color.name()`, optionally store it as default, set the field text —
`QLineEdit.setText` fires `textChanged` when the text actually changes,
and that signal is relayed to `valueChanged.emit` once connected — update
the swatch, and finally emit `valueChanged(value)` explicitly (line 269).
Returns the new state and the number of `valueChanged` emissions. -/
def ColorParameter.setValue (p : ColorParameter) (v : ColorInput)
    (useAsDefault : Bool) : ColorParameter × ℕ :=
  match toColor v with
  | none => (p, 0)
  | some c =>
    let nm := c.name
    let p1 := if useAsDefault then p.setDefaultValue (.str nm) else p
    let relay : ℕ := if p1.connected = true ∧ p1.fieldText ≠ nm then 1 else 0
    ({ p1 with fieldText := nm, buttonColor := c }, relay + 1)

/-- Source `ColorParameter.resetToDefault()`: `self.setValue(self._dvalue)`. -/
def ColorParameter.resetToDefault (p : ColorParameter) : ColorParameter × ℕ :=
  p.setValue p.dvalue false

/-- The user typing in the line edit: the raw text is stored unvalidated;
`textChanged` is relayed to `valueChanged.emit` once connected. -/
def ColorParameter.fieldTextEdit (p : ColorParameter) (t : String) :
    ColorParameter × ℕ :=
  if t = p.fieldText then (p, 0)
  else ({ p with fieldText := t }, if p.connected then 1 else 0)

/-- Source `ColorParameter.__init__(color)`: fresh widgets (empty line
edit), `setValue(color)` before any connection exists, then
`self._dvalue = color` (the raw `QColor`, not the normalized name), and
finally the `textChanged` relay connection. -/
def ColorParameter.init (c : Color) : ColorParameter :=
  let s0 : ColorParameter :=
    { fieldText := "", buttonColor := ⟨0, 0, 0⟩, dvalue := .col ⟨0, 0, 0⟩,
      connected := false }
  let s1 := (s0.setValue (.col c) false).1
  { s1 with dvalue := .col c, connected := true }

/-- The operations a `ColorParameter` is subjected to after construction. -/
inductive ColorOp where
  | set (v : ColorInput) (useAsDefault : Bool)
  | reset
  | textEdit (t : String)

def ColorParameter.applyOp (p : ColorParameter) : ColorOp → ColorParameter × ℕ
  | .set v d => p.setValue v d
  | .reset => p.resetToDefault
  | .textEdit t => p.fieldTextEdit t

def ColorParameter.applyOps (p : ColorParameter) (ops : List ColorOp) :
    ColorParameter :=
  ops.foldl (fun q op => (q.applyOp op).1) p

/-- The default value one numeric-parameter operation leaves behind: the
raw value of a `setValue(v, use_as_default=True)`, otherwise unchanged. -/
def trackNumStep (d : ℚ) : NumOp → ℚ
  | .set v true => v
  | _ => d

/-- The default value a sequence of numeric-parameter operations leaves
behind: the raw value of the last `setValue(v, use_as_default=True)`, or
the start default if there is none. -/
def trackNumDefault (d : ℚ) : List NumOp → ℚ
  | [] => d
  | op :: rest => trackNumDefault (trackNumStep d op) rest

/-- The default value one color-parameter operation leaves behind: the
normalized name of a valid `setValue(v, use_as_default=True)` argument,
otherwise unchanged. -/
def trackColorStep (d : ColorInput) : ColorOp → ColorInput
  | .set v true => ((toColor v).map (fun c => ColorInput.str c.name)).getD d
  | _ => d

/-- The default value a sequence of color-parameter operations leaves
behind: the normalized name of the last valid `setValue(v, use_as_default=True)`
argument, or the start default if there is none. -/
def trackColorDefault (d : ColorInput) : List ColorOp → ColorInput
  | [] => d
  | op :: rest => trackColorDefault (trackColorStep d op) rest

/-! ## The main-window pipeline -/

/-- A rasterized bitmap as produced by `QImage(width, height, Format_ARGB32)`
with the SVG markup painted onto it; `src` records which markup was
rendered.  Widget and image sizes are non-negative in every reachable
state, so they are carried as naturals (C++ int division on them agrees
with Nat division). -/
structure Image where
  w : ℕ
  h : ℕ
  src : String
deriving DecidableEq

/-- The pixmap handed to `QLabel.setPixmap` by `ImageView.setImage`:
the source image together with the size and the two flags of the
`QPixmap.scaled(w, h, Qt.KeepAspectRatio, Qt.SmoothTransformation)`
call. -/
structure ScaledPixmap where
  source : Image
  w : ℕ
  h : ℕ
  keepAspect : Bool
  smooth : Bool
deriving DecidableEq

/-- Size computation of `QSize::scaled` with `Qt::KeepAspectRatio`: the
largest size fitting `(tw, th)` with the aspect ratio of `(iw, ih)`,
using integer division; degenerate source sizes return the target
unchanged. -/
def scaledKeepAspect (tw th iw ih : ℕ) : ℕ × ℕ :=
  if iw = 0 ∨ ih = 0 then (tw, th)
  else
    let rw := th * iw / ih
    if rw ≤ tw then (rw, th) else (tw, tw * ih / iw)

/-- Source `ImageView.setImage(image)`: wrap in a `QPixmap`, scale to the
label's current size keeping aspect with smooth transformation, and show
it. -/
def viewSetImage (vw vh : ℕ) (img : Image) : ScaledPixmap :=
  { source := img
    w := (scaledKeepAspect vw vh img.w img.h).1
    h := (scaledKeepAspect vw vh img.w img.h).2
    keepAspect := true
    smooth := true }

/-- The flat named-argument map `MainWindow.generateImage` passes to
`wallpaper.generate` (lines 451-466), field for field. -/
structure Request where
  width : ℚ
  height : ℚ
  scale : ℚ
  rotate : ℚ
  slop : ℚ
  background : String
  nodestroke : String
  nodefill : String
  wirestyle : String
  wirestroke : String
  connfill : String
  connstroke : String
  strokewidth : ℚ
  wirewidth : ℚ
  saturation : ℚ
  lightness : ℚ
  seed : ℚ
deriving DecidableEq

/-- Modelled from the spec: the external generator `wallpaper.generate`
(the `wallpaper` module imported by the UI is not part of this source
file).  Per the spec it consumes a resolution plus the flat named
parameter map and returns vector-markup text, deterministically for
identical request contents, so it is modelled as an arbitrary pure
function from requests to markup. -/
def GeneratorFun : Type := Request → String

/-- Modelled from the toolkit: the validity check `QSvgRenderer(...).isValid()`
applied to the generated markup, an arbitrary pure predicate on markup
text. -/
def SvgCheck : Type := String → Bool

/-- State of `MainWindow`: the sixteen parameter widgets and the wire-style
combo box, the cached artifact `self.__svg_data` / `self.__image`, what the
image view currently displays, the view's size, and a count of calls made
to the external generator. -/
structure MainState where
  widthF : NumParameter
  heightF : NumParameter
  scaleF : NumParameter
  rotationF : NumParameter
  slopF : NumParameter
  strokeWidthF : NumParameter
  wireWidthF : NumParameter
  saturationF : NumParameter
  lightnessF : NumParameter
  seedF : NumParameter
  backgroundC : ColorParameter
  nodeFillC : ColorParameter
  nodeStrokeC : ColorParameter
  wireStrokeC : ColorParameter
  connFillC : ColorParameter
  connStrokeC : ColorParameter
  wireStyle : String
  svgData : Option String
  image : Option Image
  displayed : Option ScaledPixmap
  viewW : ℕ
  viewH : ℕ
  genCalls : ℕ

/-- Python's `str.endswith(suffix)`, at the character-list level. -/
def strEndsWith (s suffix : String) : Bool := suffix.data.isSuffixOf s.data

/-- Conversion of an int-parameter value to the `QImage` size argument. -/
def qToNat (q : ℚ) : ℕ := (ratTrunc q).toNat

/-- The request `MainWindow.generateImage` builds from the current
parameter values (lines 448-466). -/
def MainState.buildRequest (s : MainState) : Request :=
  { width := s.widthF.value
    height := s.heightF.value
    scale := s.scaleF.value
    rotate := s.rotationF.value
    slop := s.slopF.value
    background := s.backgroundC.value
    nodestroke := s.nodeStrokeC.value
    nodefill := s.nodeFillC.value
    wirestyle := s.wireStyle
    wirestroke := s.wireStrokeC.value
    connfill := s.connFillC.value
    connstroke := s.connStrokeC.value
    strokewidth := s.strokeWidthF.value
    wirewidth := s.wireWidthF.value
    saturation := s.saturationF.value
    lightness := s.lightnessF.value
    seed := s.seedF.value }

/-- Source `MainWindow.generateImage`: store the generator's markup in
`self.__svg_data`; if the rasterizer reports it invalid, set
`self.__svg_data = None` and raise (`Except.error`) — note `self.__image`
is left untouched on this path; otherwise render into a fresh
`QImage(width, height)` cached in `self.__image` and return it. -/
def MainState.generateImage (gen : GeneratorFun) (svgValid : SvgCheck)
    (s : MainState) : MainState × Except String Image :=
  let w := s.widthF.value
  let h := s.heightF.value
  let svg := gen s.buildRequest
  let s1 := { s with svgData := some svg, genCalls := s.genCalls + 1 }
  if svgValid svg then
    let img : Image := { w := qToNat w, h := qToNat h, src := svg }
    ({ s1 with image := some img }, .ok img)
  else
    ({ s1 with svgData := none }, .error "Generated SVG is not valid")

/-- Source `MainWindow.resizeEvent`: redisplay the cached raster via
`ImageView.setImage(self.__image)`; the generator is not involved.  In
every state in which a resize can be delivered the cache is populated
(`__init__` runs `updateImage` before the window can be shown), so the
`none` branch is unreachable and modelled as a no-op. -/
def MainState.resizeEvent (s : MainState) : MainState :=
  match s.image with
  | some img => { s with displayed := some (viewSetImage s.viewW s.viewH img) }
  | none => s

/-- Source `MainWindow.updateImage`: `self.view.setImage(self.generateImage())`;
when generation raises, the exception propagates before the view is
touched. -/
def MainState.updateImage (gen : GeneratorFun) (svgValid : SvgCheck)
    (s : MainState) : MainState × Except String Image :=
  match s.generateImage gen svgValid with
  | (s1, .ok img) =>
    ({ s1 with displayed := some (viewSetImage s1.viewW s1.viewH img) }, .ok img)
  | (s1, .error e) => (s1, .error e)

/-- What a call to `MainWindow.showOutputDialog` writes. -/
inductive ExportAction where
  | nothing : ExportAction
  | writeText (contents : String) : ExportAction
  | saveImage (img : Image) : ExportAction
  | crash : ExportAction
deriving DecidableEq

/-- The raster branch of the export: `self.__image.save(file_path)` — a
fault (`crash`) if the cache is `None`. -/
def imageSaveAction : Option Image → ExportAction
  | some img => .saveImage img
  | none => .crash

/-- Source `MainWindow.showOutputDialog` with the path chosen in the file
dialog (empty string = cancelled, as `getSaveFileName` returns): no-op
unless `self.__svg_data` is truthy; `.svg` paths get the markup written
as text, `.png`/`.jpg` paths get `self.__image.save(...)` (which would
fault on a `None` image, `ExportAction.crash`); other paths write
nothing. -/
def MainState.showOutputDialog (s : MainState) (filePath : String) :
    ExportAction :=
  match s.svgData with
  | none => .nothing
  | some svg =>
    if svg = "" then .nothing
    else if filePath = "" then .nothing
    else if strEndsWith filePath ".svg" then .writeText svg
    else if strEndsWith filePath ".png" ∨ strEndsWith filePath ".jpg" then
      imageSaveAction s.image
    else .nothing

/-- The parameter set `MainWindow.__init__` declares (lines 314-430),
with the construction-time values, ranges and steps, and empty caches
(`self.__svg_data = None`, `self.__image = None`); `__init__` then calls
`self.updateImage()`. -/
def initialState (vw vh : ℕ) : MainState :=
  { widthF := NumParameter.init .int 1920 (some (1, 4096)) (some 128)
    heightF := NumParameter.init .int 1080 (some (1, 4096)) (some 128)
    scaleF := NumParameter.init .flt (8 / 10) (some (1 / 10, 10)) (some (1 / 10))
    rotationF := NumParameter.init .flt (-7) (some (-360, 360)) none
    slopF := NumParameter.init .int 5 (some (0, 50)) (some 1)
    strokeWidthF := NumParameter.init .flt 2 (some (0, 10)) (some (1 / 10))
    wireWidthF := NumParameter.init .flt 2 (some (0, 10)) (some (1 / 10))
    saturationF := NumParameter.init .flt 1 (some (0, 1)) (some (1 / 20))
    lightnessF := NumParameter.init .flt (1 / 2) (some (0, 1)) (some (1 / 20))
    seedF := NumParameter.init .int 42 (some (0, 9999)) (some 1)
    backgroundC := ColorParameter.init ⟨255, 255, 255⟩
    nodeFillC := ColorParameter.init ⟨204, 204, 204⟩
    nodeStrokeC := ColorParameter.init ⟨204, 204, 204⟩
    wireStrokeC := ColorParameter.init ⟨204, 204, 204⟩
    connFillC := ColorParameter.init ⟨255, 255, 255⟩
    connStrokeC := ColorParameter.init ⟨204, 204, 204⟩
    wireStyle := "bezier"
    svgData := none
    image := none
    displayed := none
    viewW := vw
    viewH := vh
    genCalls := 0 }

/-! ## Abbreviations used in the statements below -/

/-- A `NumParameter` state given field by field (a plain constructor
alias keeping concrete states readable). -/
def numLit (k : NumKind) (fmn fmx fv fs : ℚ) (smn smx sv ss : ℤ) (d : ℚ)
    (c : Bool) : NumParameter :=
  { kind := k, fieldMin := fmn, fieldMax := fmx, fieldVal := fv, fieldStep := fs,
    sliderMin := smn, sliderMax := smx, sliderVal := sv, sliderStep := ss,
    dvalue := d, connected := c }

/-- A `ColorParameter` state given field by field. -/
def colorLit (t : String) (c : Color) (d : ColorInput) (cn : Bool) :
    ColorParameter :=
  { fieldText := t, buttonColor := c, dvalue := d, connected := cn }

/-- The well-formedness a `NumParameter` enjoys in every reachable state:
the field range is ordered, the field value lies inside it, and for int
kind the bounds are integers. -/
def NumParameter.Inv (p : NumParameter) : Prop :=
  p.fieldMin ≤ p.fieldMax ∧ p.fieldMin ≤ p.fieldVal ∧ p.fieldVal ≤ p.fieldMax ∧
  (p.kind = .int → p.fieldMin.den = 1 ∧ p.fieldMax.den = 1)

/-- A concrete post-construction main-window state (the values the real
`__init__` produces), used to instantiate the theorems below. -/
def sampleState : MainState :=
  { widthF := numLit .int 1 4096 1920 128 1 4096 1920 128 1920 true
    heightF := numLit .int 1 4096 1080 128 1 4096 1080 128 1080 true
    scaleF := numLit .flt (1 / 10) 10 (8 / 10) (1 / 10) 10 1000 80 10 (8 / 10) true
    rotationF := numLit .flt (-360) 360 (-7) 1 (-36000) 36000 (-700) 1 (-7) true
    slopF := numLit .int 0 50 5 1 0 50 5 1 5 true
    strokeWidthF := numLit .flt 0 10 2 (1 / 10) 0 1000 200 10 2 true
    wireWidthF := numLit .flt 0 10 2 (1 / 10) 0 1000 200 10 2 true
    saturationF := numLit .flt 0 1 1 (1 / 20) 0 100 100 5 1 true
    lightnessF := numLit .flt 0 1 (1 / 2) (1 / 20) 0 100 50 5 (1 / 2) true
    seedF := numLit .int 0 9999 42 1 0 9999 42 1 42 true
    backgroundC := colorLit "#ffffff" ⟨255, 255, 255⟩ (.col ⟨255, 255, 255⟩) true
    nodeFillC := colorLit "#cccccc" ⟨204, 204, 204⟩ (.col ⟨204, 204, 204⟩) true
    nodeStrokeC := colorLit "#cccccc" ⟨204, 204, 204⟩ (.col ⟨204, 204, 204⟩) true
    wireStrokeC := colorLit "#cccccc" ⟨204, 204, 204⟩ (.col ⟨204, 204, 204⟩) true
    connFillC := colorLit "#ffffff" ⟨255, 255, 255⟩ (.col ⟨255, 255, 255⟩) true
    connStrokeC := colorLit "#cccccc" ⟨204, 204, 204⟩ (.col ⟨204, 204, 204⟩) true
    wireStyle := "bezier"
    svgData := some "<svg/>"
    image := some { w := 1920, h := 1080, src := "<svg/>" }
    displayed := none
    viewW := 400
    viewH := 300
    genCalls := 1 }

/-! ## Basic lemmas about the arithmetic helpers -/

theorem ratFloor_eq_intFloor (q : ℚ) : q.floor = ⌊q⌋ :=
  (Rat.floor_def' q).trans Rat.floor_def.symm

theorem ratTrunc_eq (q : ℚ) : ratTrunc q = if 0 ≤ q then ⌊q⌋ else ⌈q⌉ := by
  unfold ratTrunc
  rw [ratFloor_eq_intFloor, ratFloor_eq_intFloor]
  rcases le_or_lt 0 q with h | h
  · simp [h]
  · have h2 : ⌈q⌉ = -⌊-q⌋ := by rw [← Int.ceil_neg, neg_neg]
    simp [h2]

theorem ratTrunc_eval (q : ℚ) (h : q.den = 1) : ratTrunc q = q.num := by
  have hq : ((q.num : ℤ) : ℚ) = q := (Rat.den_eq_one_iff q).mp h
  rw [ratTrunc_eq]
  have h1 : ⌊q⌋ = q.num := by conv_lhs => rw [← hq, Int.floor_intCast]
  have h2 : ⌈q⌉ = q.num := by conv_lhs => rw [← hq, Int.ceil_intCast]
  split <;> assumption

theorem ratTrunc_intCast (n : ℤ) : ratTrunc ((n : ℤ) : ℚ) = n := by
  rw [ratTrunc_eq]
  split
  · exact Int.floor_intCast n
  · exact Int.ceil_intCast n

theorem floor_add_half (n : ℤ) : ⌊(n : ℚ) + 1 / 2⌋ = n := by
  rw [Int.floor_eq_iff]
  constructor
  · linarith
  · linarith

theorem round2_eval (q : ℚ) (h : (q * 100).den = 1) : round2 q = q := by
  have hq : (((q * 100).num : ℤ) : ℚ) = q * 100 := (Rat.den_eq_one_iff _).mp h
  unfold round2
  rw [ratFloor_eq_intFloor]
  have h1 : ⌊q * 100 + 1 / 2⌋ = (q * 100).num := by
    conv_lhs => rw [← hq]
    exact floor_add_half _
  rw [h1, hq]
  ring_nf

theorem round2_abs_sub_le (q : ℚ) : |round2 q - q| ≤ 1 / 200 := by
  unfold round2
  rw [ratFloor_eq_intFloor]
  have h1 : (⌊q * 100 + 1 / 2⌋ : ℚ) ≤ q * 100 + 1 / 2 := Int.floor_le _
  have h2 : q * 100 + 1 / 2 - 1 < (⌊q * 100 + 1 / 2⌋ : ℚ) := Int.sub_one_lt_floor _
  rw [abs_le]
  constructor <;> [nlinarith; nlinarith]

theorem round2_mul_den (q : ℚ) : (round2 q * 100).den = 1 := by
  unfold round2
  rw [ratFloor_eq_intFloor]
  have h : ((⌊q * 100 + 1 / 2⌋ : ℤ) : ℚ) / 100 * 100 = ((⌊q * 100 + 1 / 2⌋ : ℤ) : ℚ) := by
    field_simp
  rw [h, Rat.den_intCast]

theorem clampQ_mem (mn mx v : ℚ) (h : mn ≤ mx) :
    mn ≤ clampQ mn mx v ∧ clampQ mn mx v ≤ mx := by
  unfold clampQ
  exact ⟨le_max_left _ _, max_le h (min_le_left _ _)⟩

theorem clampQ_eq_self (mn mx v : ℚ) (h1 : mn ≤ v) (h2 : v ≤ mx) :
    clampQ mn mx v = v := by
  unfold clampQ
  rw [min_eq_right h2, max_eq_right h1]

theorem clampZ_mem (mn mx v : ℤ) (h : mn ≤ mx) :
    mn ≤ clampZ mn mx v ∧ clampZ mn mx v ≤ mx := by
  unfold clampZ
  exact ⟨le_max_left _ _, max_le h (min_le_left _ _)⟩

theorem den_one_max {a b : ℚ} (ha : a.den = 1) (hb : b.den = 1) :
    (max a b).den = 1 := by
  rcases le_total a b with h | h
  · rw [max_eq_right h]; exact hb
  · rw [max_eq_left h]; exact ha

theorem fieldProcess_mem (k : NumKind) (mn mx v : ℚ) (h : mn ≤ mx) :
    mn ≤ fieldProcess k mn mx v ∧ fieldProcess k mn mx v ≤ mx := by
  unfold fieldProcess
  cases k <;> exact clampQ_mem _ _ _ h

theorem ratTrunc_le_cast {q mx : ℚ} (hmx : mx.den = 1) (h : q ≤ mx) :
    ((ratTrunc q : ℤ) : ℚ) ≤ mx := by
  have hq : ((mx.num : ℤ) : ℚ) = mx := (Rat.den_eq_one_iff mx).mp hmx
  rw [ratTrunc_eq]
  split
  · exact le_trans (Int.floor_le q) h
  · have hc : ⌈q⌉ ≤ mx.num := by
      rw [Int.ceil_le, hq]
      exact h
    calc ((⌈q⌉ : ℤ) : ℚ) ≤ ((mx.num : ℤ) : ℚ) := by exact_mod_cast hc
      _ = mx := hq

theorem cast_le_ratTrunc {mn q : ℚ} (hmn : mn.den = 1) (h : mn ≤ q) :
    mn ≤ ((ratTrunc q : ℤ) : ℚ) := by
  have hq : ((mn.num : ℤ) : ℚ) = mn := (Rat.den_eq_one_iff mn).mp hmn
  rw [ratTrunc_eq]
  split
  · have hf : mn.num ≤ ⌊q⌋ := by
      rw [Int.le_floor, hq]
      exact h
    calc mn = ((mn.num : ℤ) : ℚ) := hq.symm
      _ ≤ ((⌊q⌋ : ℤ) : ℚ) := by exact_mod_cast hf
  · exact le_trans h (Int.le_ceil q)

/-! ## Color parsing round-trip -/

theorem hexVal_hexDigit : ∀ n : Fin 16, hexVal (hexDigit n) = some n := by decide

theorem byteFromHex_val (hi lo : Fin 16) :
    (byteFromHex hi lo).val = hi.val * 16 + lo.val := rfl

theorem parse_name (c : Color) : parseColorString c.name = some c := by
  obtain ⟨r, g, b⟩ := c
  simp only [Color.name, hexPair, List.cons_append, List.nil_append, parseColorString,
    hexVal_hexDigit]
  simp only [Option.some.injEq, Color.mk.injEq]
  refine ⟨?_, ?_, ?_⟩ <;>
    · apply Fin.ext
      rw [byteFromHex_val]
      simp only [Fin.val_mk]
      omega

theorem toColor_name (c : Color) : toColor (.str c.name) = some c :=
  parse_name c

/-! ## Range invariant of NumParameter -/

theorem inv_setValue (p : NumParameter) (v : ℚ) (d : Bool) (h : p.Inv) :
    ((p.setValue v d).1).Inv := by
  obtain ⟨h1, h2, h3, h4⟩ := h
  cases d
  · exact ⟨h1, (fieldProcess_mem p.kind _ _ v h1).1,
      (fieldProcess_mem p.kind _ _ v h1).2, h4⟩
  · exact ⟨h1, (fieldProcess_mem p.kind _ _ v h1).1,
      (fieldProcess_mem p.kind _ _ v h1).2, h4⟩

theorem inv_resetToDefault (p : NumParameter) (h : p.Inv) :
    ((p.resetToDefault).1).Inv :=
  inv_setValue p p.dvalue false h

theorem inv_setSingleStep (p : NumParameter) (v : ℚ) (h : p.Inv) :
    ((p.setSingleStep v).1).Inv := by
  obtain ⟨h1, h2, h3, h4⟩ := h
  unfold NumParameter.setSingleStep
  cases hk : p.kind
  · exact ⟨h1, h2, h3, fun _ => h4 hk⟩
  · exact ⟨h1, h2, h3, fun hc => NumKind.noConfusion hc⟩

theorem inv_fieldRangeStep (p : NumParameter) (mn mx : ℚ) :
    (p.fieldRangeStep mn mx).Inv := by
  unfold NumParameter.fieldRangeStep NumParameter.Inv
  dsimp only
  split_ifs <;>
    refine ⟨le_max_left _ _, (clampQ_mem _ _ _ (le_max_left _ _)).1,
      (clampQ_mem _ _ _ (le_max_left _ _)).2, fun hk => ?_⟩ <;>
    · have hk2 : p.kind = NumKind.int := hk
      simp only [hk2]
      exact ⟨Rat.den_intCast _, den_one_max (Rat.den_intCast _) (Rat.den_intCast _)⟩

theorem inv_sliderRangeStep (p : NumParameter) (mn mx : ℚ) (h : p.Inv) :
    (p.sliderRangeStep mn mx).Inv := by
  obtain ⟨h1, h2, h3, h4⟩ := h
  unfold NumParameter.sliderRangeStep NumParameter.Inv
  dsimp only
  split_ifs
  · exact ⟨h1, (fieldProcess_mem _ _ _ _ h1).1, (fieldProcess_mem _ _ _ _ h1).2, h4⟩
  · exact ⟨h1, h2, h3, h4⟩

theorem inv_setRange (p : NumParameter) (mn mx : ℚ) (_h : p.Inv) :
    ((p.setRange mn mx).1).Inv :=
  inv_sliderRangeStep _ mn mx (inv_fieldRangeStep p mn mx)

theorem inv_fieldEdit (p : NumParameter) (v : ℚ) (h : p.Inv) :
    ((p.fieldEdit v).1).Inv := by
  obtain ⟨h1, h2, h3, h4⟩ := h
  unfold NumParameter.fieldEdit
  dsimp only
  split_ifs
  · exact ⟨h1, h2, h3, h4⟩
  · exact ⟨h1, (fieldProcess_mem _ _ _ _ h1).1, (fieldProcess_mem _ _ _ _ h1).2, h4⟩
  · exact ⟨h1, (fieldProcess_mem _ _ _ _ h1).1, (fieldProcess_mem _ _ _ _ h1).2, h4⟩

theorem inv_sliderEdit (p : NumParameter) (v : ℤ) (h : p.Inv) :
    ((p.sliderEdit v).1).Inv := by
  obtain ⟨h1, h2, h3, h4⟩ := h
  unfold NumParameter.sliderEdit
  dsimp only
  split_ifs
  · exact ⟨h1, h2, h3, h4⟩
  · exact ⟨h1, (fieldProcess_mem _ _ _ _ h1).1, (fieldProcess_mem _ _ _ _ h1).2, h4⟩
  · exact ⟨h1, h2, h3, h4⟩

theorem inv_applyOp (p : NumParameter) (op : NumOp) (h : p.Inv) :
    ((p.applyOp op).1).Inv := by
  cases op
  · exact inv_setValue p _ _ h
  · exact inv_setRange p _ _ h
  · exact inv_setSingleStep p _ h
  · exact inv_resetToDefault p h
  · exact inv_fieldEdit p _ h
  · exact inv_sliderEdit p _ h

theorem inv_applyOps (p : NumParameter) (ops : List NumOp) (h : p.Inv) :
    (p.applyOps ops).Inv := by
  induction ops generalizing p with
  | nil => exact h
  | cons op rest ih => exact ih _ (inv_applyOp p op h)

theorem inv_of_update (p : NumParameter) (v : ℚ) (b : Bool) (h : p.Inv) :
    ({ p with dvalue := v, connected := b }).Inv :=
  ⟨h.1, h.2.1, h.2.2.1, h.2.2.2⟩

theorem inv_s0 (k : NumKind) :
    ({ kind := k, fieldMin := 0,
       fieldMax := match k with | .int => (99 : ℚ) | .flt => 9999 / 100,
       fieldVal := 0, fieldStep := 1, sliderMin := 0, sliderMax := 99,
       sliderVal := 0, sliderStep := 1, dvalue := 0,
       connected := false } : NumParameter).Inv := by
  cases k
  · exact ⟨by norm_num, le_refl 0, by norm_num, fun _ => ⟨rfl, rfl⟩⟩
  · exact ⟨by norm_num, le_refl 0, by norm_num, fun hc => NumKind.noConfusion hc⟩

theorem inv_init (k : NumKind) (v : ℚ) (r : Option (ℚ × ℚ)) (st : Option ℚ) :
    (NumParameter.init k v r st).Inv := by
  unfold NumParameter.init
  cases st with
  | none =>
    dsimp only
    exact inv_of_update _ _ _
      (inv_setValue _ _ _ (inv_setRange _ _ _ (inv_s0 k)))
  | some stp =>
    dsimp only
    exact inv_of_update _ _ _
      (inv_setValue _ _ _ (inv_setSingleStep _ _ (inv_setRange _ _ _ (inv_s0 k))))

theorem value_mem_of_inv (p : NumParameter) (h : p.Inv) :
    p.fieldMin ≤ p.value ∧ p.value ≤ p.fieldMax := by
  obtain ⟨h1, h2, h3, h4⟩ := h
  unfold NumParameter.value
  cases hk : p.kind
  · obtain ⟨hd1, hd2⟩ := h4 hk
    exact ⟨cast_le_ratTrunc hd1 h2, ratTrunc_le_cast hd2 h3⟩
  · exact ⟨h2, h3⟩

/-- C9: for every NumericParameter — any kind, construction arguments and
subsequent operation sequence (setValue, setRange, setSingleStep,
resetToDefault, field edits, slider edits) — the current declared range
contains the current value: `min ≤ value() ≤ max` holds after
construction and is preserved by every operation. -/
theorem c9_num_value_always_in_range (k : NumKind) (v : ℚ) (r : Option (ℚ × ℚ))
    (st : Option ℚ) (ops : List NumOp) :
    ((NumParameter.init k v r st).applyOps ops).fieldMin ≤
        ((NumParameter.init k v r st).applyOps ops).value ∧
      ((NumParameter.init k v r st).applyOps ops).value ≤
        ((NumParameter.init k v r st).applyOps ops).fieldMax :=
  value_mem_of_inv _ (inv_applyOps _ ops (inv_init k v r st))

/-- C6: for valid inputs inside the declared range, `setValue(v)` followed by
`value()` returns `v` — exactly for integer kind (and the result is an
integer), and within the 2-decimal rounding of the double spin box for
fractional kind (and, when the declared bounds are 2-decimal numbers as
every range in this program is, the result is a 2-decimal number). -/
theorem c6_setValue_roundtrip (p : NumParameter) (v : ℚ)
    (hord : p.fieldMin ≤ p.fieldMax)
    (hlo : p.fieldMin ≤ v) (hhi : v ≤ p.fieldMax) :
    (p.kind = .int → v.den = 1 →
        (p.setValue v false).1.value = v ∧ ((p.setValue v false).1.value).den = 1)
    ∧ (p.kind = .flt →
        |(p.setValue v false).1.value - v| ≤ 1 / 200
          ∧ ((p.fieldMin * 100).den = 1 → (p.fieldMax * 100).den = 1 →
              ((p.setValue v false).1.value * 100).den = 1)) := by
  constructor
  · intro hk hv
    have hcast : ((v.num : ℤ) : ℚ) = v := (Rat.den_eq_one_iff v).mp hv
    have hval : (p.setValue v false).1.value = v := by
      unfold NumParameter.setValue NumParameter.value
      dsimp only
      simp only [Bool.false_eq_true, if_false, hk, fieldProcess,
        ratTrunc_eval v hv, hcast, clampQ_eq_self _ _ _ hlo hhi]
    refine ⟨hval, ?_⟩
    rw [hval]
    exact hv
  · intro hk
    have hval : (p.setValue v false).1.value =
        clampQ p.fieldMin p.fieldMax (round2 v) := by
      unfold NumParameter.setValue NumParameter.value
      dsimp only
      simp only [Bool.false_eq_true, if_false, hk, fieldProcess]
    rw [hval]
    have hr := round2_abs_sub_le v
    rw [abs_le] at hr
    constructor
    · rw [abs_le]
      unfold clampQ
      constructor
      · have h := le_trans
          (le_min (by linarith : v - 1 / 200 ≤ p.fieldMax)
            (by linarith : v - 1 / 200 ≤ round2 v))
          (le_max_right p.fieldMin (min p.fieldMax (round2 v)))
        linarith
      · have h := max_le (by linarith : p.fieldMin ≤ v + 1 / 200)
          (le_trans (min_le_right p.fieldMax (round2 v))
            (by linarith : round2 v ≤ v + 1 / 200))
        linarith
    · intro hmn hmx
      unfold clampQ
      rcases le_total (round2 v) p.fieldMax with h | h
      · rw [min_eq_right h]
        rcases le_total p.fieldMin (round2 v) with h2 | h2
        · rw [max_eq_right h2]
          exact round2_mul_den v
        · rw [max_eq_left h2]
          exact hmn
      · rw [min_eq_left h]
        rw [max_eq_right hord]
        exact hmx

/-! ## Projection lemmas for the two setRange halves -/

theorem fieldRangeStep_kind (p : NumParameter) (mn mx : ℚ) :
    (p.fieldRangeStep mn mx).kind = p.kind := by
  unfold NumParameter.fieldRangeStep
  dsimp only
  split_ifs <;> rfl

theorem fieldRangeStep_fieldMin (p : NumParameter) (mn mx : ℚ) :
    (p.fieldRangeStep mn mx).fieldMin =
      (match p.kind with
        | .int => ((ratTrunc mn : ℤ) : ℚ)
        | .flt => round2 mn) := by
  unfold NumParameter.fieldRangeStep
  dsimp only
  split_ifs <;> rfl

theorem fieldRangeStep_fieldMax (p : NumParameter) (mn mx : ℚ) :
    (p.fieldRangeStep mn mx).fieldMax =
      max
        (match p.kind with
          | .int => ((ratTrunc mn : ℤ) : ℚ)
          | .flt => round2 mn)
        (match p.kind with
          | .int => ((ratTrunc mx : ℤ) : ℚ)
          | .flt => round2 mx) := by
  unfold NumParameter.fieldRangeStep
  dsimp only
  split_ifs <;> rfl

theorem sliderRangeStep_kind (p : NumParameter) (mn mx : ℚ) :
    (p.sliderRangeStep mn mx).kind = p.kind := by
  unfold NumParameter.sliderRangeStep
  dsimp only
  split_ifs <;> rfl

theorem sliderRangeStep_fieldMin (p : NumParameter) (mn mx : ℚ) :
    (p.sliderRangeStep mn mx).fieldMin = p.fieldMin := by
  unfold NumParameter.sliderRangeStep
  dsimp only
  split_ifs <;> rfl

theorem sliderRangeStep_fieldMax (p : NumParameter) (mn mx : ℚ) :
    (p.sliderRangeStep mn mx).fieldMax = p.fieldMax := by
  unfold NumParameter.sliderRangeStep
  dsimp only
  split_ifs <;> rfl

theorem sliderRangeStep_sliderMin (p : NumParameter) (mn mx : ℚ) :
    (p.sliderRangeStep mn mx).sliderMin =
      (match p.kind with
        | .int => ratTrunc mn
        | .flt => ratTrunc (mn * 100)) := by
  unfold NumParameter.sliderRangeStep
  dsimp only
  split_ifs <;> rfl

theorem sliderRangeStep_sliderMax (p : NumParameter) (mn mx : ℚ) :
    (p.sliderRangeStep mn mx).sliderMax =
      max
        (match p.kind with
          | .int => ratTrunc mn
          | .flt => ratTrunc (mn * 100))
        (match p.kind with
          | .int => ratTrunc mx
          | .flt => ratTrunc (mx * 100)) := by
  unfold NumParameter.sliderRangeStep
  dsimp only
  split_ifs <;> rfl

/-- Evaluation of the Scale parameter construction
`NumParameter(0.8, (0.1, 10), 0.1)` to an explicit state. -/
theorem scaleInit_eq :
    NumParameter.init .flt (8/10) (some (1/10, 10)) (some (1/10)) =
      numLit .flt (1/10) 10 (8/10) (1/10) 10 1000 80 10 (8/10) true := by
  have h1a : (numLit .flt 0 (9999/100) 0 1 0 99 0 1 0 false).fieldRangeStep (1/10) 10 =
      numLit .flt (1/10) 10 (1/10) 1 0 99 0 1 0 false := by
    norm_num [NumParameter.fieldRangeStep, numLit, clampQ, round2_eval, max_def, min_def]
  have h1b : (numLit .flt (1/10) 10 (1/10) 1 0 99 0 1 0 false).sliderRangeStep (1/10) 10 =
      numLit .flt (1/10) 10 (1/10) 1 10 1000 10 1 0 false := by
    norm_num [NumParameter.sliderRangeStep, numLit, clampZ, ratTrunc_eval, max_def, min_def]
  have h2 : (numLit .flt (1/10) 10 (1/10) 1 10 1000 10 1 0 false).setSingleStep (1/10) =
      (numLit .flt (1/10) 10 (1/10) (1/10) 10 1000 10 10 0 false, 0) := by
    norm_num [NumParameter.setSingleStep, numLit, ratTrunc_eval]
  have h3 : (numLit .flt (1/10) 10 (1/10) (1/10) 10 1000 10 10 0 false).setValue (8/10) false =
      (numLit .flt (1/10) 10 (8/10) (1/10) 10 1000 80 10 0 false, 1) := by
    norm_num [NumParameter.setValue, numLit, fieldProcess, scaleToSlider, clampQ, clampZ,
      ratTrunc_eval, round2_eval, max_def, min_def]
  have e0 : NumParameter.init .flt (8/10) (some (1/10, 10)) (some (1/10)) =
      { ((((numLit .flt 0 (9999/100) 0 1 0 99 0 1 0
              false).fieldRangeStep (1/10) 10).sliderRangeStep (1/10) 10).setSingleStep
            (1/10)).1.setValue (8/10) false |>.1 with
        dvalue := 8/10, connected := true } := rfl
  rw [e0, h1a, h1b]
  simp only [h2, h3]
  rfl

/-- C7: for fractional parameters, `setRange(min, max)` puts the slider on
the scaled integer range `[min*100, max*100]` while the edit field keeps
`[min, max]` unscaled (for ordered 2-decimal bounds, as all ranges in this
program are); consequently the Scale parameter (`value=0.8, range=(0.1,10),
step=0.1`) has slider maximum `1000` and moving its slider there yields
`value() = 10`, and the integer parameter (`value=1080, range=(1,4096),
step=128`) still has `value() = 1080` after `setRange(1, 2160)`. -/
theorem c7_setRange_scaling :
    (∀ (p : NumParameter) (mn mx : ℚ), p.kind = .flt → mn ≤ mx →
        (mn * 100).den = 1 → (mx * 100).den = 1 →
        (((p.setRange mn mx).1.sliderMin : ℚ) = mn * 100
          ∧ ((p.setRange mn mx).1.sliderMax : ℚ) = mx * 100
          ∧ (p.setRange mn mx).1.fieldMin = mn
          ∧ (p.setRange mn mx).1.fieldMax = mx))
    ∧ ((NumParameter.init .int 1080 (some (1, 4096)) (some 128)).setRange 1 2160).1.value
        = 1080
    ∧ (NumParameter.init .flt (8/10) (some (1/10, 10)) (some (1/10))).sliderMax = 1000
    ∧ ((NumParameter.init .flt (8/10) (some (1/10, 10)) (some (1/10))).sliderEdit 1000).1.value
        = 10 := by
  refine ⟨?_, ?_, ?_, ?_⟩
  · intro p mn mx hk hle hdmn hdmx
    have hkf : (p.fieldRangeStep mn mx).kind = NumKind.flt :=
      (fieldRangeStep_kind p mn mx).trans hk
    have hmn100 : ((mn * 100).num : ℚ) = mn * 100 := (Rat.den_eq_one_iff _).mp hdmn
    have hmx100 : ((mx * 100).num : ℚ) = mx * 100 := (Rat.den_eq_one_iff _).mp hdmx
    have hmul : mn * 100 ≤ mx * 100 :=
      mul_le_mul_of_nonneg_right hle (by norm_num)
    refine ⟨?_, ?_, ?_, ?_⟩
    · show (((p.fieldRangeStep mn mx).sliderRangeStep mn mx).sliderMin : ℚ) = mn * 100
      rw [sliderRangeStep_sliderMin]
      simp only [hkf]
      rw [ratTrunc_eval _ hdmn, hmn100]
    · show (((p.fieldRangeStep mn mx).sliderRangeStep mn mx).sliderMax : ℚ) = mx * 100
      rw [sliderRangeStep_sliderMax]
      simp only [hkf]
      rw [ratTrunc_eval _ hdmn, ratTrunc_eval _ hdmx]
      push_cast [Int.cast_max]
      rw [hmn100, hmx100, max_eq_right hmul]
    · show ((p.fieldRangeStep mn mx).sliderRangeStep mn mx).fieldMin = mn
      rw [sliderRangeStep_fieldMin, fieldRangeStep_fieldMin]
      simp only [hk]
      exact round2_eval mn hdmn
    · show ((p.fieldRangeStep mn mx).sliderRangeStep mn mx).fieldMax = mx
      rw [sliderRangeStep_fieldMax, fieldRangeStep_fieldMax]
      simp only [hk]
      rw [round2_eval mn hdmn, round2_eval mx hdmx, max_eq_right hle]
  · decide
  · rw [scaleInit_eq]
    rfl
  · rw [scaleInit_eq]
    norm_num [NumParameter.sliderEdit, NumParameter.value, numLit, clampZ, clampQ,
      fieldProcess, unscaleFromSlider, round2_eval, max_def, min_def]

/-- Witness for C6 at a concrete fractional parameter and input 0.567, and
a concrete integer parameter and input 1920. -/
theorem c6_setValue_roundtrip_witness :
    |((numLit .flt 0 10 1 1 0 1000 100 10 1 true).setValue (567/1000) false).1.value
        - 567/1000| ≤ 1 / 200
      ∧ ((numLit .int 1 4096 1 128 1 4096 1 128 1 true).setValue 1920 false).1.value
          = 1920 :=
  ⟨((c6_setValue_roundtrip (numLit .flt 0 10 1 1 0 1000 100 10 1 true) (567/1000)
      (by norm_num [numLit]) (by norm_num [numLit]) (by norm_num [numLit])).2 rfl).1,
   ((c6_setValue_roundtrip (numLit .int 1 4096 1 128 1 4096 1 128 1 true) 1920
      (by norm_num [numLit]) (by norm_num [numLit]) (by norm_num [numLit])).1 rfl rfl).1⟩

/-- Witness for C7's general fractional `setRange` clause at a concrete
parameter and range. -/
theorem c7_setRange_scaling_witness :
    (((numLit .flt 0 10 1 1 0 1000 100 10 1 true).setRange (1/10) 10).1.sliderMin : ℚ)
        = (1/10) * 100
      ∧ ((numLit .flt 0 10 1 1 0 1000 100 10 1 true).setRange (1/10) 10).1.fieldMax = 10 :=
  ⟨(c7_setRange_scaling.1 (numLit .flt 0 10 1 1 0 1000 100 10 1 true) (1/10) 10 rfl
      (by norm_num) (by norm_num) (by norm_num)).1,
   (c7_setRange_scaling.1 (numLit .flt 0 10 1 1 0 1000 100 10 1 true) (1/10) 10 rfl
      (by norm_num) (by norm_num) (by norm_num)).2.2.2⟩

theorem setDefaultValue_connected (p : ColorParameter) (v : ColorInput) :
    (p.setDefaultValue v).connected = p.connected := by
  unfold ColorParameter.setDefaultValue
  rcases h : toColor v with _ | c <;> simp only [h]

theorem setDefaultValue_fieldText (p : ColorParameter) (v : ColorInput) :
    (p.setDefaultValue v).fieldText = p.fieldText := by
  unfold ColorParameter.setDefaultValue
  rcases h : toColor v with _ | c <;> simp only [h]

/-- C1 (amended): one `NumParameter.setValue` call always delivers exactly
one `valueChanged`, however many widgets it updates; but a successful
`ColorParameter.setValue` delivers TWO notifications whenever the
normalized text differs from the current field text (one through the
`textChanged` relay of line 229, one from the explicit emit of line 269),
and one otherwise. -/
theorem c1_notifications_per_setValue :
    (∀ (p : NumParameter) (v : ℚ) (d : Bool), (p.setValue v d).2 = 1)
    ∧ (∀ (p : ColorParameter) (v : ColorInput) (d : Bool) (c : Color),
        toColor v = some c →
        (p.setValue v d).2 =
          if p.connected = true ∧ p.fieldText ≠ c.name then 2 else 1) := by
  constructor
  · intro p v d
    cases d <;> rfl
  · intro p v d c hc
    unfold ColorParameter.setValue
    simp only [hc]
    cases d
    · simp only [Bool.false_eq_true, if_false]
      split_ifs <;> rfl
    · simp only [eq_self_iff_true, if_true, setDefaultValue_connected,
        setDefaultValue_fieldText]
      split_ifs <;> rfl

/-- Counterexample to C1 as stated: a successful color `setValue` on a
freshly constructed white background parameter delivers two
notifications, not one. -/
theorem c1_counterexample :
    ((ColorParameter.init ⟨255, 255, 255⟩).setValue (.str "#cccccc") false).2 = 2
      ∧ ((ColorParameter.init ⟨255, 255, 255⟩).setValue (.str "#cccccc") false).2 ≠ 1 := by
  decide

/-- Witness for C1's color clause at a concrete parameter and color. -/
theorem c1_notifications_witness :
    ((ColorParameter.init ⟨255, 255, 255⟩).setValue (.str "#cccccc") false).2 =
      if (ColorParameter.init ⟨255, 255, 255⟩).connected = true
          ∧ (ColorParameter.init ⟨255, 255, 255⟩).fieldText ≠
            (Color.mk 204 204 204).name then 2 else 1 :=
  c1_notifications_per_setValue.2 (ColorParameter.init ⟨255, 255, 255⟩)
    (.str "#cccccc") false ⟨204, 204, 204⟩ (by decide)

/-- C5 (amended): an unparseable color input makes `ColorParameter.setValue`
a strict no-op — state unchanged, no notification; but a numeric
out-of-range input is NOT a no-op: the spin box clamps it into the
declared range and one notification is still emitted. -/
theorem c5_invalid_input_behaviour :
    (∀ (p : ColorParameter) (v : ColorInput) (d : Bool), toColor v = none →
        p.setValue v d = (p, 0))
    ∧ (∀ (p : NumParameter) (v : ℚ) (d : Bool), p.fieldMin ≤ p.fieldMax →
        (p.setValue v d).2 = 1
          ∧ p.fieldMin ≤ (p.setValue v d).1.fieldVal
          ∧ (p.setValue v d).1.fieldVal ≤ p.fieldMax) := by
  constructor
  · intro p v d hv
    unfold ColorParameter.setValue
    simp only [hv]
  · intro p v d h
    cases d
    · exact ⟨rfl, (fieldProcess_mem _ _ _ _ h).1, (fieldProcess_mem _ _ _ _ h).2⟩
    · exact ⟨rfl, (fieldProcess_mem _ _ _ _ h).1, (fieldProcess_mem _ _ _ _ h).2⟩

/-- Counterexample to C5 as stated: `setValue(5000)` on the Width parameter
(range `[1, 4096]`, current value 1920) changes the stored value (to the
clamp 4096) and emits a notification. -/
theorem c5_counterexample :
    ((numLit .int 1 4096 1920 128 1 4096 1920 128 1920 true).setValue 5000 false).1.value
        = 4096
      ∧ ((numLit .int 1 4096 1920 128 1 4096 1920 128 1920 true).setValue 5000 false).1.value
          ≠ (numLit .int 1 4096 1920 128 1 4096 1920 128 1920 true).value
      ∧ ((numLit .int 1 4096 1920 128 1 4096 1920 128 1920 true).setValue 5000 false).2 ≠ 0 := by
  decide

/-- Witness for C5: an invalid color string is a strict no-op on a concrete
parameter, and a concrete numeric `setValue` emits one notification and
stays in range. -/
theorem c5_invalid_input_witness :
    (colorLit "#ffffff" ⟨255, 255, 255⟩ (.col ⟨255, 255, 255⟩) true).setValue
        (.str "not-a-color") false =
      (colorLit "#ffffff" ⟨255, 255, 255⟩ (.col ⟨255, 255, 255⟩) true, 0)
      ∧ ((numLit .int 1 4096 1920 128 1 4096 1920 128 1920 true).setValue 5000 false).2 = 1 :=
  ⟨c5_invalid_input_behaviour.1 (colorLit "#ffffff" ⟨255, 255, 255⟩ (.col ⟨255, 255, 255⟩) true)
      (.str "not-a-color") false (by decide),
   (c5_invalid_input_behaviour.2 (numLit .int 1 4096 1920 128 1 4096 1920 128 1920 true)
      5000 false (by norm_num [numLit])).1⟩

/-! ## Default-value tracking -/

theorem fieldRangeStep_dvalue (p : NumParameter) (mn mx : ℚ) :
    (p.fieldRangeStep mn mx).dvalue = p.dvalue := by
  unfold NumParameter.fieldRangeStep
  dsimp only
  split_ifs <;> rfl

theorem sliderRangeStep_dvalue (p : NumParameter) (mn mx : ℚ) :
    (p.sliderRangeStep mn mx).dvalue = p.dvalue := by
  unfold NumParameter.sliderRangeStep
  dsimp only
  split_ifs <;> rfl

theorem num_dvalue_applyOp (p : NumParameter) (op : NumOp) :
    (p.applyOp op).1.dvalue = trackNumStep p.dvalue op := by
  cases op with
  | set w d =>
    cases d
    · rfl
    · rfl
  | range mn mx =>
    show ((p.fieldRangeStep mn mx).sliderRangeStep mn mx).dvalue = p.dvalue
    rw [sliderRangeStep_dvalue, fieldRangeStep_dvalue]
  | step v =>
    show ((p.setSingleStep v).1).dvalue = p.dvalue
    unfold NumParameter.setSingleStep
    cases p.kind <;> rfl
  | reset => rfl
  | fieldEdit v =>
    show ((p.fieldEdit v).1).dvalue = p.dvalue
    unfold NumParameter.fieldEdit
    dsimp only
    split_ifs <;> rfl
  | sliderEdit v =>
    show ((p.sliderEdit v).1).dvalue = p.dvalue
    unfold NumParameter.sliderEdit
    dsimp only
    split_ifs <;> rfl

theorem num_dvalue_applyOps (p : NumParameter) (ops : List NumOp) :
    (p.applyOps ops).dvalue = trackNumDefault p.dvalue ops := by
  induction ops generalizing p with
  | nil => rfl
  | cons op rest ih =>
    show (((p.applyOp op).1).applyOps rest).dvalue = _
    rw [ih, num_dvalue_applyOp]
    rfl

theorem num_init_dvalue (k : NumKind) (v : ℚ) (r : Option (ℚ × ℚ))
    (st : Option ℚ) : (NumParameter.init k v r st).dvalue = v := by
  unfold NumParameter.init
  cases st <;> rfl

theorem color_dvalue_applyOp (p : ColorParameter) (op : ColorOp) :
    (p.applyOp op).1.dvalue = trackColorStep p.dvalue op := by
  cases op with
  | set v d =>
    show ((p.setValue v d).1).dvalue = trackColorStep p.dvalue (ColorOp.set v d)
    cases d
    · unfold ColorParameter.setValue
      rcases h : toColor v with _ | c <;> simp only [h] <;> rfl
    · unfold ColorParameter.setValue
      rcases h : toColor v with _ | c
      · simp only [h, trackColorStep, Option.map_none', Option.getD_none]
      · simp only [h, trackColorStep, Option.map_some', Option.getD_some,
          eq_self_iff_true, if_true]
        show (p.setDefaultValue (ColorInput.str c.name)).dvalue = _
        unfold ColorParameter.setDefaultValue
        simp only [toColor_name]
  | reset =>
    show ((p.setValue p.dvalue false).1).dvalue = p.dvalue
    unfold ColorParameter.setValue
    rcases h : toColor p.dvalue with _ | c <;> simp only [h]
    rfl
  | textEdit t =>
    show ((p.fieldTextEdit t).1).dvalue = p.dvalue
    unfold ColorParameter.fieldTextEdit
    split_ifs <;> rfl

theorem color_dvalue_applyOps (p : ColorParameter) (ops : List ColorOp) :
    (p.applyOps ops).dvalue = trackColorDefault p.dvalue ops := by
  induction ops generalizing p with
  | nil => rfl
  | cons op rest ih =>
    show (((p.applyOp op).1).applyOps rest).dvalue = _
    rw [ih, color_dvalue_applyOp]
    rfl

theorem color_init_dvalue (c : Color) :
    (ColorParameter.init c).dvalue = .col c := rfl

/-- C8 (amended): `resetToDefault()` is exactly `setValue(defaultValue())`
for both parameter types, and after any operation sequence the stored
default is — for numeric parameters — exactly the last value passed with
`use_as_default=True` (or the construction value if none), while for color
parameters it is the NORMALIZED `#rrggbb` name of that last value, not the
value as passed (so reset restores the normalized form, not the exact
input). -/
theorem c8_reset_restores_default :
    (∀ p : NumParameter, p.resetToDefault = p.setValue p.defaultValue false)
    ∧ (∀ p : ColorParameter, p.resetToDefault = p.setValue p.defaultValue false)
    ∧ (∀ (k : NumKind) (v : ℚ) (r : Option (ℚ × ℚ)) (st : Option ℚ)
        (ops : List NumOp),
        ((NumParameter.init k v r st).applyOps ops).defaultValue =
          trackNumDefault v ops)
    ∧ (∀ (c : Color) (ops : List ColorOp),
        ((ColorParameter.init c).applyOps ops).defaultValue =
          trackColorDefault (.col c) ops) := by
  refine ⟨fun p => rfl, fun p => rfl, ?_, ?_⟩
  · intro k v r st ops
    show ((NumParameter.init k v r st).applyOps ops).dvalue = _
    rw [num_dvalue_applyOps, num_init_dvalue]
  · intro c ops
    show ((ColorParameter.init c).applyOps ops).dvalue = _
    rw [color_dvalue_applyOps, color_init_dvalue]

/-- Counterexample to C8 as stated: after `setValue("red", use_as_default=True)`,
`resetToDefault()` leaves `value() == "#ff0000"` — the normalized name —
not exactly the value `"red"` that was passed. -/
theorem c8_counterexample :
    ((((ColorParameter.init ⟨0, 0, 0⟩).setValue (.str "red") true).1.resetToDefault).1).value
        ≠ "red"
      ∧ ((((ColorParameter.init ⟨0, 0, 0⟩).setValue (.str "red") true).1.resetToDefault).1).value
          = "#ff0000" := by
  decide

/-! ## Pipeline lemmas -/

theorem scaledKeepAspect_fits (tw th iw ih : ℕ) (hiw : 0 < iw) (hih : 0 < ih) :
    (scaledKeepAspect tw th iw ih).1 ≤ tw ∧ (scaledKeepAspect tw th iw ih).2 ≤ th := by
  unfold scaledKeepAspect
  rw [if_neg (by omega : ¬(iw = 0 ∨ ih = 0))]
  dsimp only
  split_ifs with hrw
  · exact ⟨hrw, le_refl th⟩
  · refine ⟨le_refl tw, ?_⟩
    push_neg at hrw
    have h1 : (tw + 1) * ih ≤ th * iw := (Nat.le_div_iff_mul_le hih).mp hrw
    have h2 : tw * ih ≤ th * iw :=
      le_trans (Nat.mul_le_mul_right ih (Nat.le_succ tw)) h1
    calc tw * ih / iw ≤ th * iw / iw := Nat.div_le_div_right h2
      _ = th := Nat.mul_div_cancel th hiw

/-- C2 (amended): when the generated markup fails the rasterizer's validity
check, the run surfaces the failure to the caller (the exception becomes
`Except.error`) and clears the cached vector markup — but the cached raster
image is NOT cleared: `self.__image` keeps its previous contents, so a
stale bitmap remains available for redisplay. -/
theorem c2_validation_failure_state (gen : GeneratorFun) (svgValid : SvgCheck)
    (s : MainState) (h : svgValid (gen s.buildRequest) = false) :
    (s.generateImage gen svgValid).2 = .error "Generated SVG is not valid"
      ∧ (s.generateImage gen svgValid).1.svgData = none
      ∧ (s.generateImage gen svgValid).1.image = s.image := by
  have hrun : s.generateImage gen svgValid =
      ({ s with svgData := none, genCalls := s.genCalls + 1 },
        .error "Generated SVG is not valid") := by
    unfold MainState.generateImage
    dsimp only
    rw [h]
    rfl
  rw [hrun]
  exact ⟨rfl, rfl, rfl⟩

/-- Counterexample to C2 as stated: a failing run on a state whose cache
holds a previous raster leaves that raster in place — the artifact is not
fully cleared. -/
theorem c2_counterexample :
    (sampleState.generateImage (fun _ => "bad") (fun _ => false)).1.image ≠ none
      ∧ (sampleState.generateImage (fun _ => "bad") (fun _ => false)).1.image
          = some { w := 1920, h := 1080, src := "<svg/>" } := by
  constructor
  · intro hc
    exact Option.noConfusion hc
  · rfl

/-- Witness for C2's amended statement at a concrete state and failing
validity check. -/
theorem c2_validation_failure_witness :
    (sampleState.generateImage (fun _ => "bad") (fun _ => false)).2 =
        .error "Generated SVG is not valid"
      ∧ (sampleState.generateImage (fun _ => "bad") (fun _ => false)).1.svgData = none :=
  ⟨(c2_validation_failure_state (fun _ => "bad") (fun _ => false) sampleState rfl).1,
   (c2_validation_failure_state (fun _ => "bad") (fun _ => false) sampleState rfl).2.1⟩

/-- C3: a window resize with no intervening parameter change never invokes
the external generator — the call count is unchanged, the caches and the
parameter-derived request are untouched — and only redisplays: the cached
raster is rescaled to the view size with aspect ratio kept and smooth
transformation, the result fitting the display area. -/
theorem c3_resize_only_redisplays (s : MainState) (img : Image)
    (h : s.image = some img) :
    s.resizeEvent.genCalls = s.genCalls
      ∧ s.resizeEvent.svgData = s.svgData
      ∧ s.resizeEvent.image = s.image
      ∧ s.resizeEvent.buildRequest = s.buildRequest
      ∧ s.resizeEvent.displayed = some (viewSetImage s.viewW s.viewH img)
      ∧ (viewSetImage s.viewW s.viewH img).source = img
      ∧ (viewSetImage s.viewW s.viewH img).keepAspect = true
      ∧ (viewSetImage s.viewW s.viewH img).smooth = true
      ∧ (0 < img.w → 0 < img.h →
          (viewSetImage s.viewW s.viewH img).w ≤ s.viewW
            ∧ (viewSetImage s.viewW s.viewH img).h ≤ s.viewH) := by
  have hres : s.resizeEvent =
      { s with displayed := some (viewSetImage s.viewW s.viewH img) } := by
    unfold MainState.resizeEvent
    rw [h]
  rw [hres]
  refine ⟨rfl, rfl, rfl, rfl, rfl, rfl, rfl, rfl, ?_⟩
  intro hw hh
  exact scaledKeepAspect_fits s.viewW s.viewH img.w img.h hw hh

/-- Witness for C3 at the concrete sample state. -/
theorem c3_resize_only_redisplays_witness :
    sampleState.resizeEvent.genCalls = sampleState.genCalls
      ∧ sampleState.resizeEvent.displayed =
          some (viewSetImage sampleState.viewW sampleState.viewH
            { w := 1920, h := 1080, src := "<svg/>" }) :=
  ⟨(c3_resize_only_redisplays sampleState { w := 1920, h := 1080, src := "<svg/>" } rfl).1,
   (c3_resize_only_redisplays sampleState { w := 1920, h := 1080, src := "<svg/>" }
      rfl).2.2.2.2.1⟩

theorem generateImage_buildRequest (gen : GeneratorFun) (svgValid : SvgCheck)
    (s : MainState) :
    (s.generateImage gen svgValid).1.buildRequest = s.buildRequest := by
  unfold MainState.generateImage
  dsimp only
  split_ifs <;> rfl

theorem generateImage_svgData_of_valid (gen : GeneratorFun) (svgValid : SvgCheck)
    (s : MainState) (h : svgValid (gen s.buildRequest) = true) :
    (s.generateImage gen svgValid).1.svgData = some (gen s.buildRequest) := by
  unfold MainState.generateImage
  dsimp only
  rw [h]
  rfl

theorem generateImage_result_of_valid (gen : GeneratorFun) (svgValid : SvgCheck)
    (s : MainState) (h : svgValid (gen s.buildRequest) = true) :
    (s.generateImage gen svgValid).2 =
      .ok { w := qToNat s.widthF.value, h := qToNat s.heightF.value,
            src := gen s.buildRequest } := by
  unfold MainState.generateImage
  dsimp only
  rw [h]
  rfl

theorem generateImage_image_of_valid (gen : GeneratorFun) (svgValid : SvgCheck)
    (s : MainState) (h : svgValid (gen s.buildRequest) = true) :
    (s.generateImage gen svgValid).1.image =
      some { w := qToNat s.widthF.value, h := qToNat s.heightF.value,
             src := gen s.buildRequest } := by
  unfold MainState.generateImage
  dsimp only
  rw [h]
  rfl

theorem generateImage_widthF (gen : GeneratorFun) (svgValid : SvgCheck)
    (s : MainState) :
    (s.generateImage gen svgValid).1.widthF = s.widthF := by
  unfold MainState.generateImage
  dsimp only
  split_ifs <;> rfl

theorem generateImage_heightF (gen : GeneratorFun) (svgValid : SvgCheck)
    (s : MainState) :
    (s.generateImage gen svgValid).1.heightF = s.heightF := by
  unfold MainState.generateImage
  dsimp only
  split_ifs <;> rfl

theorem showOutputDialog_some (s : MainState) (svg : String)
    (h : s.svgData = some svg) (path : String) :
    s.showOutputDialog path =
      (if svg = "" then .nothing
        else if path = "" then .nothing
        else if strEndsWith path ".svg" then .writeText svg
        else if strEndsWith path ".png" ∨ strEndsWith path ".jpg" then
          imageSaveAction s.image
        else .nothing) := by
  unfold MainState.showOutputDialog
  rw [h]

/-- C4: export writes nothing (and cannot fault) when no valid artifact
exists — `svgData` absent after a failed run, empty, or the dialog
cancelled; with a valid artifact, a `.svg` destination receives exactly
the cached markup text and a `.png`/`.jpg` destination receives the
cached raster, which a successful run stored at the requested generation
resolution. -/
theorem c4_export_behaviour :
    (∀ (s : MainState) (path : String), s.svgData = none →
        s.showOutputDialog path = .nothing)
    ∧ (∀ (s : MainState) (path : String), s.svgData = some "" →
        s.showOutputDialog path = .nothing)
    ∧ (∀ s : MainState, s.showOutputDialog "" = .nothing)
    ∧ (∀ (s : MainState) (svg path : String), s.svgData = some svg → svg ≠ "" →
        path ≠ "" → strEndsWith path ".svg" = true →
        s.showOutputDialog path = .writeText svg)
    ∧ (∀ (s : MainState) (svg path : String) (img : Image), s.svgData = some svg →
        svg ≠ "" → path ≠ "" → strEndsWith path ".svg" = false →
        (strEndsWith path ".png" = true ∨ strEndsWith path ".jpg" = true) →
        s.image = some img →
        s.showOutputDialog path = .saveImage img)
    ∧ (∀ (gen : GeneratorFun) (svgValid : SvgCheck) (s : MainState),
        svgValid (gen s.buildRequest) = true →
        (s.generateImage gen svgValid).1.image =
          some { w := qToNat s.widthF.value, h := qToNat s.heightF.value,
                 src := gen s.buildRequest }) := by
  refine ⟨?_, ?_, ?_, ?_, ?_, ?_⟩
  · intro s path h
    unfold MainState.showOutputDialog
    rw [h]
  · intro s path h
    rw [showOutputDialog_some s "" h path, if_pos rfl]
  · intro s
    rcases h : s.svgData with _ | svg
    · unfold MainState.showOutputDialog
      rw [h]
    · rw [showOutputDialog_some s svg h ""]
      rcases eq_or_ne svg "" with rfl | hsvg
      · rw [if_pos rfl]
      · rw [if_neg hsvg, if_pos rfl]
  · intro s svg path h hsvg hpath hsfx
    rw [showOutputDialog_some s svg h path, if_neg hsvg, if_neg hpath, if_pos hsfx]
  · intro s svg path img h hsvg hpath hsfx hras himg
    rw [showOutputDialog_some s svg h path, if_neg hsvg, if_neg hpath,
      if_neg (by rw [hsfx]; exact Bool.false_ne_true : ¬strEndsWith path ".svg" = true),
      if_pos hras, himg]
    rfl
  · exact generateImage_image_of_valid

/-- Witness for C4: on the concrete sample state, exporting to `out.svg`
writes the cached markup, exporting to `out.png` writes the cached raster,
and after the cache is cleared nothing is written. -/
theorem c4_export_behaviour_witness :
    sampleState.showOutputDialog "out.svg" = .writeText "<svg/>"
      ∧ sampleState.showOutputDialog "out.png" =
          .saveImage { w := 1920, h := 1080, src := "<svg/>" }
      ∧ ({ sampleState with svgData := none } : MainState).showOutputDialog "out.svg"
          = .nothing :=
  ⟨c4_export_behaviour.2.2.2.1 sampleState "<svg/>" "out.svg" rfl (by decide) (by decide)
      (by decide),
   c4_export_behaviour.2.2.2.2.1 sampleState "<svg/>" "out.png"
      { w := 1920, h := 1080, src := "<svg/>" } rfl (by decide) (by decide) (by decide)
      (Or.inl (by decide)) rfl,
   c4_export_behaviour.1 { sampleState with svgData := none } "out.svg" rfl⟩

/-- C10: triggering generation twice with unchanged parameters and size
passes identical request contents to the deterministic generator, so the
two runs store identical vector markup (and, when the markup validates,
return identical artifacts). -/
theorem c10_two_runs_identical_markup (gen : GeneratorFun) (svgValid : SvgCheck)
    (s : MainState) :
    (s.generateImage gen svgValid).1.buildRequest = s.buildRequest
      ∧ (svgValid (gen s.buildRequest) = true →
          (s.generateImage gen svgValid).1.svgData = some (gen s.buildRequest)
            ∧ (((s.generateImage gen svgValid).1).generateImage gen svgValid).1.svgData
                = some (gen s.buildRequest)
            ∧ (s.generateImage gen svgValid).2 =
                (((s.generateImage gen svgValid).1).generateImage gen svgValid).2) := by
  refine ⟨generateImage_buildRequest gen svgValid s, ?_⟩
  intro h
  have hreq := generateImage_buildRequest gen svgValid s
  have h2 : svgValid (gen ((s.generateImage gen svgValid).1).buildRequest) = true := by
    rw [hreq]
    exact h
  refine ⟨generateImage_svgData_of_valid gen svgValid s h, ?_, ?_⟩
  · rw [generateImage_svgData_of_valid gen svgValid _ h2, hreq]
  · rw [generateImage_result_of_valid gen svgValid s h,
      generateImage_result_of_valid gen svgValid _ h2, hreq,
      generateImage_widthF gen svgValid s, generateImage_heightF gen svgValid s]

/-- Witness for C10 at the concrete sample state with a constant generator
and an accepting validity check. -/
theorem c10_two_runs_identical_markup_witness :
    (sampleState.generateImage (fun _ => "<svg/>") (fun _ => true)).1.svgData
        = some "<svg/>"
      ∧ ((sampleState.generateImage (fun _ => "<svg/>")
            (fun _ => true)).1.generateImage (fun _ => "<svg/>") (fun _ => true)).1.svgData
          = some "<svg/>" :=
  ⟨((c10_two_runs_identical_markup (fun _ => "<svg/>") (fun _ => true) sampleState).2
      rfl).1,
   ((c10_two_runs_identical_markup (fun _ => "<svg/>") (fun _ => true) sampleState).2
      rfl).2.1⟩
